import Mathlib

/-!
Verification of the error-taxonomy and response-envelope layer of the
martinkrivda/typescript-monorepo-boilerplate server.

The definitions below are a shallow embedding of the TypeScript sources:
* `apps/server/src/constants/http.ts` (problem registry, `statusToKey`,
  `getProblemDefByStatus`) and the errors module (`problem-registry.ts`,
  `app-error.ts`, `domain-codes.ts`);
* `apps/server/src/lib/json-pointer.ts` (RFC 6901 escaping and URI-fragment
  percent encoding);
* `apps/server/src/lib/response.ts` (`parseTraceparent`, `buildMeta`, `ok`,
  `fail`);
* `lib/problem.ts` (`safeDetail`, `zodToFieldErrors`, `toProblemDetails`);
* `lib/validation-hook.ts` (`extractEcodeFromParams`, `mapToECode`,
  `zodToFieldErrorsWithDomainCodes`);
* `lib/error-handler.ts` (`handleStandardError`).

Environment inputs (NODE_ENV, API_BASE_URL, request context, clock, the
fallback UUID generator) are passed as explicit parameters.
-/

-- =================================================================
-- Problem registry (problem-registry.ts)
-- =================================================================

/-- Log levels for error severity (`LogLevel` in problem-registry.ts). -/
inductive LogLevel where
  | debug | info | warn | error
deriving DecidableEq

/-- Problem type keys (`ProblemKey` in problem-registry.ts). -/
inductive ProblemKey where
  | validation_error
  | not_found
  | unauthorized
  | forbidden
  | conflict
  | bad_request
  | payload_too_large
  | rate_limited
  | bad_gateway
  | gateway_timeout
  | internal_error
  | service_unavailable
deriving DecidableEq

/-- Problem definition record (`ProblemDef` in problem-registry.ts). -/
structure ProblemDef where
  key : ProblemKey
  suffix : String
  title : String
  status : Nat
  code : String
  errorType : String
  logLevel : LogLevel
  exposeDetail : Bool
deriving DecidableEq

open ProblemKey in
/-- The frozen `ProblemRegistry` object from problem-registry.ts, as a total
map from keys to definitions. -/
def ProblemRegistry : ProblemKey → ProblemDef
  | validation_error =>
    { key := validation_error, suffix := "validation-error",
      title := "Validation failed", status := 422, code := "E1001",
      errorType := "validation_error", logLevel := .info, exposeDetail := true }
  | not_found =>
    { key := not_found, suffix := "not-found",
      title := "Not found", status := 404, code := "E1404",
      errorType := "not_found", logLevel := .info, exposeDetail := true }
  | unauthorized =>
    { key := unauthorized, suffix := "unauthorized",
      title := "Unauthorized", status := 401, code := "E1401",
      errorType := "unauthorized", logLevel := .info, exposeDetail := true }
  | forbidden =>
    { key := forbidden, suffix := "forbidden",
      title := "Forbidden", status := 403, code := "E1403",
      errorType := "forbidden", logLevel := .info, exposeDetail := true }
  | conflict =>
    { key := conflict, suffix := "conflict",
      title := "Conflict", status := 409, code := "E1409",
      errorType := "conflict", logLevel := .info, exposeDetail := true }
  | bad_request =>
    { key := bad_request, suffix := "bad-request",
      title := "Bad request", status := 400, code := "E1400",
      errorType := "bad_request", logLevel := .info, exposeDetail := true }
  | payload_too_large =>
    { key := payload_too_large, suffix := "payload-too-large",
      title := "Payload too large", status := 413, code := "E1413",
      errorType := "payload_too_large", logLevel := .warn, exposeDetail := true }
  | rate_limited =>
    { key := rate_limited, suffix := "rate-limited",
      title := "Too many requests", status := 429, code := "E1429",
      errorType := "rate_limited", logLevel := .warn, exposeDetail := true }
  | bad_gateway =>
    { key := bad_gateway, suffix := "bad-gateway",
      title := "Bad gateway", status := 502, code := "E1502",
      errorType := "bad_gateway", logLevel := .error, exposeDetail := true }
  | gateway_timeout =>
    { key := gateway_timeout, suffix := "gateway-timeout",
      title := "Gateway timeout", status := 504, code := "E1504",
      errorType := "gateway_timeout", logLevel := .error, exposeDetail := true }
  | service_unavailable =>
    { key := service_unavailable, suffix := "service-unavailable",
      title := "Service unavailable", status := 503, code := "E1503",
      errorType := "service_unavailable", logLevel := .error, exposeDetail := false }
  | internal_error =>
    { key := internal_error, suffix := "internal-error",
      title := "Internal error", status := 500, code := "E1500",
      errorType := "internal_error", logLevel := .error, exposeDetail := false }

/-- The keys of `ProblemRegistry` in the object's declaration order (the order
`Object.values` iterates the frozen registry object). -/
def registryKeyOrder : List ProblemKey :=
  [.validation_error, .not_found, .unauthorized, .forbidden, .conflict,
   .bad_request, .payload_too_large, .rate_limited, .bad_gateway,
   .gateway_timeout, .service_unavailable, .internal_error]

/-- `statusToKey` from problem-registry.ts: maps an HTTP status to a problem
key, defaulting to `internal_error`. -/
def statusToKey : Nat → ProblemKey
  | 400 => .bad_request
  | 401 => .unauthorized
  | 403 => .forbidden
  | 404 => .not_found
  | 409 => .conflict
  | 413 => .payload_too_large
  | 422 => .validation_error
  | 429 => .rate_limited
  | 502 => .bad_gateway
  | 503 => .service_unavailable
  | 504 => .gateway_timeout
  | _ => .internal_error

/-- `getProblemDef` from problem-registry.ts. -/
def getProblemDef (key : ProblemKey) : ProblemDef :=
  ProblemRegistry key

/-- `getProblemDefByStatus` from problem-registry.ts. -/
def getProblemDefByStatus (status : Nat) : ProblemDef :=
  ProblemRegistry (statusToKey status)

/-- `problemTypeUri` from problem-registry.ts; the base URL
(`env.API_BASE_URL`) is passed explicitly. -/
def problemTypeUri (baseUrl : Option String) (key : ProblemKey) : String :=
  let base := match baseUrl with
    | some b => b ++ "/problems"
    | none => "https://api.template.local/problems"
  base ++ "/" ++ (ProblemRegistry key).suffix

-- =================================================================
-- Domain code tables (domain-codes.ts), in declaration order
-- =================================================================

/-- `Object.values(AUTH_CODES)` in declaration order. -/
def AUTH_CODES : List String :=
  ["E2001", "E2002", "E2003", "E2004", "E2005", "E2006", "E2007", "E2008",
   "E2009", "E2010", "E2011"]

/-- `Object.values(SIGNING_CODES)` in declaration order. -/
def SIGNING_CODES : List String :=
  ["E3001", "E3002", "E3003", "E3004", "E3005", "E3006", "E3007", "E3008",
   "E3009", "E3010"]

/-- `Object.values(COMPANY_CODES)` in declaration order. -/
def COMPANY_CODES : List String :=
  ["E4001", "E4002", "E4003", "E4004", "E4005", "E4006", "E4007", "E4008",
   "E4009", "E4010", "E4011"]

/-- `Object.values(SOAP_CODES)` in declaration order. -/
def SOAP_CODES : List String :=
  ["E5001", "E5002", "E5003", "E5004", "E5005", "E5006", "E5007", "E5008",
   "E5009", "E5010", "E5011", "E5012"]

/-- The codes of the base registry, in registry declaration order
(`Object.values(ProblemRegistry).map(def => def.code)`). -/
def problemRegistryCodes : List String :=
  registryKeyOrder.map (fun k => (ProblemRegistry k).code)

/-- All codes across the base registry and the four domain tables, in the
order the collision test file concatenates them. -/
def allCodes : List String :=
  problemRegistryCodes ++ AUTH_CODES ++ SIGNING_CODES ++ COMPANY_CODES ++ SOAP_CODES

/-- Decides the regex `^E\d{4}$`. -/
def matchesECodeFormat (s : String) : Bool :=
  match s.data with
  | ['E', a, b, c, d] => a.isDigit && b.isDigit && c.isDigit && d.isDigit
  | _ => false

/-- Decides the regex `^E<r>\d{3}$` for a fixed range digit `r`
(e.g. `^E1\d{3}$` when `r = '1'`). -/
def matchesRangeCode (r : Char) (s : String) : Bool :=
  match s.data with
  | ['E', a, b, c, d] => (a == r) && b.isDigit && c.isDigit && d.isDigit
  | _ => false

-- =================================================================
-- JSON Pointer encoder (lib/json-pointer.ts)
-- =================================================================

/-- A `string | number` path token (the input type of
`escapeJsonPointerToken`). -/
inductive Tok where
  | str (s : String)
  | num (n : Nat)
deriving DecidableEq

/-- JavaScript `String(token)` on a `string | number` token. -/
def Tok.toJsString : Tok → String
  | .str s => s
  | .num n => Nat.repr n

/-- A `string | number | symbol` path segment (the input type of
`toJsonPointerFragment`). -/
inductive Seg where
  | str (s : String)
  | num (n : Nat)
  | sym
deriving DecidableEq

/-- The filter in `toJsonPointerFragment`: keeps strings and numbers,
drops symbols. -/
def segToTok : Seg → Option Tok
  | .str s => some (.str s)
  | .num n => some (.num n)
  | .sym => none

/-- Embeds a `string | number` token into `string | number | symbol`. -/
def Tok.toSeg : Tok → Seg
  | .str s => .str s
  | .num n => .num n

/-- JavaScript `str.replace(/c/g, rep)` for a single-character pattern `c`:
every occurrence of `c` is replaced by `rep`. -/
def replaceChar (c : Char) (rep : List Char) (cs : List Char) : List Char :=
  cs.flatMap (fun x => if x = c then rep else [x])

/-- `escapeJsonPointerToken` from json-pointer.ts: `String(token)`, then
replace every `~` with `~0`, then replace every `/` with `~1` (in that
order). -/
def escapeJsonPointerToken (token : Tok) : String :=
  ⟨replaceChar '/' ['~', '1'] (replaceChar '~' ['~', '0'] token.toJsString.data)⟩

/-- The characters `encodeURIComponent` leaves unescaped:
`A-Z a-z 0-9 - _ . ! ~ * ' ( )`. -/
def isUriComponentSafe (c : Char) : Bool :=
  c.isAlphanum || ['-', '_', '.', '!', '~', '*', Char.ofNat 39, '(', ')'].contains c

/-- UTF-8 bytes of a Unicode scalar value. -/
def utf8Bytes (u : Nat) : List Nat :=
  if u < 128 then [u]
  else if u < 2048 then [192 + u / 64, 128 + u % 64]
  else if u < 65536 then [224 + u / 4096, 128 + (u / 64) % 64, 128 + u % 64]
  else [240 + u / 262144, 128 + (u / 4096) % 64, 128 + (u / 64) % 64, 128 + u % 64]

/-- Uppercase hex digit of a value below 16. -/
def hexUpper (n : Nat) : Char :=
  Char.ofNat (if n < 10 then 48 + n else 55 + n)

/-- Percent-escape of one byte, `%XX` with uppercase hex. -/
def pctEncodeByte (b : Nat) : List Char :=
  ['%', hexUpper (b / 16), hexUpper (b % 16)]

/-- JavaScript `encodeURIComponent`: safe characters pass through, every
other character is percent-encoded per UTF-8 byte. -/
def encodeURIComponentStr (s : String) : String :=
  ⟨s.data.flatMap (fun c =>
    if isUriComponentSafe c then [c] else (utf8Bytes c.toNat).flatMap pctEncodeByte)⟩

/-- JavaScript `str.replace(/abc/g, r)` for a fixed three-character pattern:
left-to-right, non-overlapping, scanning continues after each
replacement. -/
def replaceTriple (a b c r : Char) : List Char → List Char
  | x :: y :: z :: rest =>
    if x = a ∧ y = b ∧ z = c then r :: replaceTriple a b c r rest
    else x :: replaceTriple a b c r (y :: z :: rest)
  | xs => xs

/-- `percentEncodeForFragment` from json-pointer.ts: `encodeURIComponent`,
then restore `%21 %27 %28 %29 %2A` to `! ' ( ) *` (in that order). -/
def percentEncodeForFragment (s : String) : String :=
  let e0 := (encodeURIComponentStr s).data
  let e1 := replaceTriple '%' '2' '1' '!' e0
  let e2 := replaceTriple '%' '2' '7' (Char.ofNat 39) e1
  let e3 := replaceTriple '%' '2' '8' '(' e2
  let e4 := replaceTriple '%' '2' '9' ')' e3
  ⟨replaceTriple '%' '2' 'A' '*' e4⟩

/-- `toJsonPointerFragment` from json-pointer.ts. The `uriEncode` flag is
`options?.uriEncode` (`false` when options are omitted). -/
def toJsonPointerFragment (path : List Seg) (uriEncode : Bool) : String :=
  let validPath := path.filterMap segToTok
  if validPath.isEmpty then "#"
  else
    let escaped := validPath.map escapeJsonPointerToken
    if uriEncode then
      "#/" ++ String.intercalate "/" (escaped.map percentEncodeForFragment)
    else
      "#/" ++ String.intercalate "/" escaped

-- =================================================================
-- Field errors, AppError (errors/app-error.ts)
-- =================================================================

/-- `FieldError` from app-error.ts. -/
structure FieldError where
  field : Option String
  pointer : Option String
  message : String
  code : Option String
  reason : Option String
deriving DecidableEq

/-- `AppError` from app-error.ts (the `cause` member is dropped: it is never
read by the converter). `errors` defaults to `[]` in the constructor. -/
structure AppError where
  key : ProblemKey
  message : String
  detail : Option String
  errors : List FieldError
  statusOverride : Option Nat
  codeOverride : Option String
deriving DecidableEq

/-- `AppError.notFound(resource, identifier?)` factory from app-error.ts. -/
def AppError.notFound (resource : String) (identifier : Option String) : AppError :=
  { key := .not_found, message := "Resource not found",
    detail := some (match identifier with
      | some id => resource ++ " with identifier '" ++ id ++ "' was not found"
      | none => resource ++ " was not found"),
    errors := [], statusOverride := none, codeOverride := none }

/-- `AppError.validation(detail, errors)` factory from app-error.ts. -/
def AppError.validation (detail : String) (errors : List FieldError) : AppError :=
  { key := .validation_error, message := "Validation failed",
    detail := some detail, errors := errors,
    statusOverride := none, codeOverride := none }

-- =================================================================
-- Response envelope builder (lib/response.ts)
-- =================================================================

/-- `ResponseMeta` from response.ts. -/
structure ResponseMeta where
  requestId : String
  timestamp : String
  traceId : Option String
  spanId : Option String
deriving DecidableEq

/-- Lowercase hex digit, `[0-9a-f]`. -/
def isLowerHexDigit (c : Char) : Bool :=
  c.isDigit || decide ('a' ≤ c ∧ c ≤ 'f')

/-- Consumes exactly `n` lowercase hex digits from the front of a character
list, returning them with the remainder; fails on a shorter or non-hex
front. -/
def takeHex : Nat → List Char → Option (List Char × List Char)
  | 0, cs => some ([], cs)
  | _ + 1, [] => none
  | n + 1, c :: cs =>
    if isLowerHexDigit c then
      match takeHex n cs with
      | some (h, r) => some (c :: h, r)
      | none => none
    else none

/-- Consumes a literal `-` from the front of a character list. -/
def expectDash : List Char → Option (List Char)
  | c :: r => if c = '-' then some r else none
  | [] => none

/-- Anchored match of the traceparent regex
`^([0-9a-f]{2})-([0-9a-f]{32})-([0-9a-f]{16})-([0-9a-f]{2})$`, returning the
four capture groups. -/
def traceparentMatch (s : String) : Option (String × String × String × String) :=
  match takeHex 2 s.data with
  | none => none
  | some (v, rest1) =>
    match expectDash rest1 with
    | none => none
    | some rest2 =>
      match takeHex 32 rest2 with
      | none => none
      | some (t, rest3) =>
        match expectDash rest3 with
        | none => none
        | some rest4 =>
          match takeHex 16 rest4 with
          | none => none
          | some (p, rest5) =>
            match expectDash rest5 with
            | none => none
            | some rest6 =>
              match takeHex 2 rest6 with
              | none => none
              | some (f, rest7) =>
                if rest7 = [] then some (⟨v⟩, ⟨t⟩, ⟨p⟩, ⟨f⟩) else none

/-- `parseTraceparent` from response.ts: regex validation plus the W3C
rejection rules (version `ff`, all-zero trace-id, all-zero parent-id);
returns the `{traceId?, spanId?}` pair, both absent on any rejection. -/
def parseTraceparent (traceparent : Option String) : Option String × Option String :=
  match traceparent with
  | none => (none, none)
  | some s =>
    match traceparentMatch s with
    | none => (none, none)
    | some (version, traceId, spanId, _flags) =>
      if version = "ff" ∨ traceId = "00000000000000000000000000000000"
          ∨ spanId = "0000000000000000" then
        (none, none)
      else
        (some traceId, some spanId)

/-- The per-request inputs of response.ts, passed explicitly: the
`requestId` context variable, the UUID the fallback would generate, the
current time, the `traceparent` header, and the request path/method. -/
structure ReqContext where
  requestId : Option String
  fallbackUuid : String
  now : String
  traceparent : Option String
  path : String
  method : String
deriving DecidableEq

/-- `getRequestId` from response.ts: the context value when it is set and
non-empty (JS truthiness), otherwise the generated fallback UUID. -/
def getRequestId (c : ReqContext) : String :=
  match c.requestId with
  | some r => if r = "" then c.fallbackUuid else r
  | none => c.fallbackUuid

/-- `buildMeta` from response.ts. -/
def buildMeta (c : ReqContext) : ResponseMeta :=
  let pair := parseTraceparent c.traceparent
  { requestId := getRequestId c, timestamp := c.now,
    traceId := pair.1, spanId := pair.2 }

/-- RFC 9457 `ProblemDetails` from lib/problem.ts. The source member
`instance` is named `instancePath` here (`instance` is a Lean keyword). -/
structure ProblemDetails where
  type : String
  title : String
  status : Nat
  detail : String
  instancePath : String
  code : String
  errors : List FieldError
deriving DecidableEq

/-- The envelope body built by `ok`/`fail`: both arms of the
`SuccessEnvelope | ErrorEnvelope` union share this shape, `data` and `error`
being nullable. -/
structure Envelope (α : Type) where
  success : Bool
  data : Option α
  error : Option ProblemDetails
  meta : ResponseMeta
deriving DecidableEq

/-- The value of `c.json(body, status)`: a response with a JSON body and an
HTTP status. -/
structure JsonResponse (α : Type) where
  body : α
  status : Nat
deriving DecidableEq

/-- `ok` from response.ts: success envelope; the response status is the
explicit argument when one is passed, else 200. -/
def ok {α : Type} (c : ReqContext) (data : Option α) (status : Option Nat) :
    JsonResponse (Envelope α) :=
  { body := { success := true, data := data, error := none, meta := buildMeta c },
    status := match status with
      | some s => s
      | none => 200 }

/-- `fail` from response.ts: error envelope with the given problem and the
required explicit status. -/
def fail {α : Type} (c : ReqContext) (problem : ProblemDetails) (status : Nat) :
    JsonResponse (Envelope α) :=
  { body := { success := false, data := none, error := some problem, meta := buildMeta c },
    status := status }

-- =================================================================
-- Zod issues and the problem converter (lib/problem.ts)
-- =================================================================

/-- The `params`/`params.ecode` metadata attached to a Zod issue: absent
params, params without a string `ecode`, or a string `ecode` marker. -/
inductive EcodeParams where
  | missing
  | paramsWithoutEcode
  | ecode (s : String)
deriving DecidableEq

/-- A Zod validation issue: path, human message, Zod issue code
(`too_big`, `custom`, ...), and the optional params metadata. -/
structure ZodIssue where
  path : List Tok
  message : String
  code : String
  params : EcodeParams
deriving DecidableEq

/-- A `ZodError`: its list of issues. -/
structure ZodError where
  issues : List ZodIssue
deriving DecidableEq

/-- An error value reaching `toProblemDetails`, by the branch of its
`instanceof` dispatch: an `AppError`, a `ZodError`, an `HTTPException`
(status plus message), some other `Error` (its message), or a thrown
non-`Error` value. -/
structure HTTPException where
  status : Nat
  message : String
deriving DecidableEq

inductive ErrValue where
  | app (e : AppError)
  | zod (e : ZodError)
  | http (e : HTTPException)
  | jsError (message : String)
  | nonError
deriving DecidableEq

/-- `safeDetail` from lib/problem.ts; `prod` is `env.NODE_ENV ===
"production"`. -/
def safeDetail (prod : Bool) (defn : ProblemDef) (raw : String) : String :=
  if !prod then raw
  else if defn.exposeDetail then raw else "An unexpected error occurred"

/-- `DEFAULT_VALIDATION_CODE` from lib/problem.ts and validation-hook.ts. -/
def DEFAULT_VALIDATION_CODE : String := "E1001"

/-- The `field` member of a converted issue:
`issue.path.length ? issue.path.join(".") : undefined`. -/
def issueFieldName (path : List Tok) : Option String :=
  match path with
  | [] => none
  | _ => some (String.intercalate "." (path.map Tok.toJsString))

/-- `zodToFieldErrors` from lib/problem.ts: the fallback adapter, always
using `DEFAULT_VALIDATION_CODE`. -/
def zodToFieldErrors (zerr : ZodError) : List FieldError :=
  zerr.issues.map (fun issue =>
    { field := issueFieldName issue.path,
      pointer := some (toJsonPointerFragment (issue.path.map Tok.toSeg) false),
      message := issue.message,
      code := some DEFAULT_VALIDATION_CODE,
      reason := some issue.code })

/-- `ProblemResult` from lib/problem.ts. -/
structure ProblemResult where
  problem : ProblemDetails
  httpStatus : Nat
  key : ProblemKey
  logLevel : LogLevel
  errorType : String
deriving DecidableEq

/-- `toProblemDetails` from lib/problem.ts: the four-branch dispatch.
`prod`, `baseUrl` embed the environment; `instPath` is `c.req.path`. -/
def toProblemDetails (prod : Bool) (baseUrl : Option String) (instPath : String)
    (err : ErrValue) : ProblemResult :=
  match err with
  | .app e =>
    let defn := ProblemRegistry e.key
    let status := e.statusOverride.getD defn.status
    let code := e.codeOverride.getD defn.code
    let detail := safeDetail prod defn (e.detail.getD e.message)
    { key := e.key, httpStatus := status, logLevel := defn.logLevel,
      errorType := defn.errorType,
      problem := { type := problemTypeUri baseUrl e.key, title := defn.title,
                   status := status, detail := detail, instancePath := instPath,
                   code := code, errors := e.errors } }
  | .zod e =>
    let defn := ProblemRegistry .validation_error
    { key := .validation_error, httpStatus := defn.status,
      logLevel := defn.logLevel, errorType := defn.errorType,
      problem := { type := problemTypeUri baseUrl .validation_error,
                   title := defn.title, status := defn.status,
                   detail := safeDetail prod defn "The request contains invalid data",
                   instancePath := instPath, code := defn.code,
                   errors := zodToFieldErrors e } }
  | .http e =>
    let key := statusToKey e.status
    let defn := ProblemRegistry key
    { key := key, httpStatus := e.status, logLevel := defn.logLevel,
      errorType := defn.errorType,
      problem := { type := problemTypeUri baseUrl key, title := defn.title,
                   status := e.status,
                   detail := safeDetail prod defn
                     (if e.message = "" then defn.title else e.message),
                   instancePath := instPath, code := defn.code, errors := [] } }
  | .jsError msg =>
    let defn := ProblemRegistry .internal_error
    { key := .internal_error, httpStatus := defn.status,
      logLevel := defn.logLevel, errorType := defn.errorType,
      problem := { type := problemTypeUri baseUrl .internal_error,
                   title := defn.title, status := defn.status,
                   detail := safeDetail prod defn msg,
                   instancePath := instPath, code := defn.code, errors := [] } }
  | .nonError =>
    let defn := ProblemRegistry .internal_error
    { key := .internal_error, httpStatus := defn.status,
      logLevel := defn.logLevel, errorType := defn.errorType,
      problem := { type := problemTypeUri baseUrl .internal_error,
                   title := defn.title, status := defn.status,
                   detail := safeDetail prod defn "Unknown error",
                   instancePath := instPath, code := defn.code, errors := [] } }

-- =================================================================
-- Validation hook adapter (lib/validation-hook.ts)
-- =================================================================

/-- `extractEcodeFromParams` from validation-hook.ts: the `params.ecode`
marker when it is a string matching `^E\d{4}$`, else nothing. -/
def extractEcodeFromParams (issue : ZodIssue) : Option String :=
  match issue.params with
  | .ecode s => if matchesECodeFormat s then some s else none
  | _ => none

/-- `mapToECode` from validation-hook.ts: the marker when present and valid,
else the generic `E1001`. -/
def mapToECode (issue : ZodIssue) : String :=
  match extractEcodeFromParams issue with
  | some c => c
  | none => DEFAULT_VALIDATION_CODE

/-- The per-issue conversion performed inside
`zodToFieldErrorsWithDomainCodes`. -/
def issueToFieldErrorWithCode (issue : ZodIssue) : FieldError :=
  { field := issueFieldName issue.path,
    pointer := some (toJsonPointerFragment (issue.path.map Tok.toSeg) false),
    message := issue.message,
    code := some (mapToECode issue),
    reason := some issue.code }

/-- `zodToFieldErrorsWithDomainCodes` from validation-hook.ts. -/
def zodToFieldErrorsWithDomainCodes (zerr : ZodError) : List FieldError :=
  zerr.issues.map issueToFieldErrorWithCode

-- =================================================================
-- Boundary handler (lib/error-handler.ts)
-- =================================================================

/-- `handleStandardError` from error-handler.ts, as the response it
returns: convert, then `fail(c, problem, httpStatus)` (the logging side
effect writes to the external logger and is not part of the returned
value). -/
def handleStandardError (prod : Bool) (baseUrl : Option String)
    (c : ReqContext) (err : ErrValue) : JsonResponse (Envelope Unit) :=
  let r := toProblemDetails prod baseUrl c.path err
  fail c r.problem r.httpStatus

-- =================================================================
-- Specification-side predicates and concrete fixtures
-- =================================================================

/-- The guard condition of the regex in predicate form: input decomposes per
the pattern `^[0-9a-f]{2}-[0-9a-f]{32}-[0-9a-f]{16}-[0-9a-f]{2}$`, the
version group is not `ff`, and neither id group is all zeros. -/
def TraceAccepted (s : String) : Prop :=
  ∃ v t p f : List Char,
    s.data = v ++ '-' :: (t ++ '-' :: (p ++ '-' :: f)) ∧
    v.length = 2 ∧ t.length = 32 ∧ p.length = 16 ∧ f.length = 2 ∧
    (∀ c ∈ v, isLowerHexDigit c = true) ∧
    (∀ c ∈ t, isLowerHexDigit c = true) ∧
    (∀ c ∈ p, isLowerHexDigit c = true) ∧
    (∀ c ∈ f, isLowerHexDigit c = true) ∧
    v ≠ ['f', 'f'] ∧ t ≠ List.replicate 32 '0' ∧ p ≠ List.replicate 16 '0'

/-- The status carried inside an emitted error envelope, when one is
present (`body.error.status` of a response). -/
def errorStatusOf {α : Type} (r : JsonResponse (Envelope α)) : Option Nat :=
  r.body.error.map (fun p => p.status)

/-- A concrete request context for concrete-input theorems. -/
def ctx0 : ReqContext :=
  { requestId := some "req-1", fallbackUuid := "fb-uuid",
    now := "2026-01-01T00:00:00.000Z", traceparent := none,
    path := "/x", method := "GET" }

/-- A concrete `ProblemDetails` whose `status` member is 500. -/
def problem500 : ProblemDetails :=
  { type := "https://api.template.local/problems/internal-error",
    title := "Internal error", status := 500, detail := "boom",
    instancePath := "/x", code := "E1500", errors := [] }

-- =================================================================
-- Helper lemmas for the traceparent parser
-- =================================================================

/-- Soundness of `takeHex`: a successful run consumed exactly `n` leading
lowercase hex digits. -/
theorem takeHex_sound :
    ∀ (n : Nat) (cs h r : List Char), takeHex n cs = some (h, r) →
      cs = h ++ r ∧ h.length = n ∧ ∀ c ∈ h, isLowerHexDigit c = true := by
  intro n
  induction n with
  | zero =>
    intro cs h r he
    simp [takeHex] at he
    simp [he.1, he.2]
  | succ m ih =>
    intro cs h r he
    cases cs with
    | nil => simp [takeHex] at he
    | cons c cs' =>
      by_cases hc : isLowerHexDigit c
      · rw [takeHex, if_pos hc] at he
        cases he' : takeHex m cs' with
        | none => rw [he'] at he; simp at he
        | some pr =>
          obtain ⟨h', r'⟩ := pr
          rw [he'] at he
          simp at he
          obtain ⟨hh, hr⟩ := he
          obtain ⟨hcs, hlen, hhex⟩ := ih cs' h' r' he'
          subst hh hr hcs
          refine ⟨rfl, by simp [hlen], ?_⟩
          intro x hx
          rcases List.mem_cons.mp hx with hx | hx
          · subst hx; exact hc
          · exact hhex x hx
      · rw [takeHex, if_neg hc] at he
        simp at he

/-- Completeness of `takeHex`: it accepts any block of `n` lowercase hex
digits and returns the remainder. -/
theorem takeHex_complete :
    ∀ (h r : List Char), (∀ c ∈ h, isLowerHexDigit c = true) →
      takeHex h.length (h ++ r) = some (h, r) := by
  intro h
  induction h with
  | nil => intro r _; simp [takeHex]
  | cons c h' ih =>
    intro r hhex
    have hc : isLowerHexDigit c = true := hhex c (List.mem_cons_self c h')
    have ih' := ih r (fun x hx => hhex x (List.mem_cons_of_mem c hx))
    simp only [List.length_cons, List.cons_append, takeHex, hc, if_pos]
    have ih'' : takeHex h'.length (h'.append r) = some (h', r) := ih'
    rw [ih'']

/-- Soundness of `expectDash`. -/
theorem expectDash_sound {r r' : List Char} (h : expectDash r = some r') :
    r = '-' :: r' := by
  cases r with
  | nil => simp [expectDash] at h
  | cons c rest =>
    by_cases hc : c = '-'
    · subst hc
      simp [expectDash] at h
      rw [h]
    · simp [expectDash, hc] at h

/-- Two strings with the same character data are equal. -/
theorem string_eq_of_data_eq {a b : String} (h : a.data = b.data) : a = b := by
  cases a
  cases b
  simp at h
  rw [h]

/-- The data of the all-zero 32-char string is `replicate 32 '0'`. -/
theorem zeros32_data :
    ("00000000000000000000000000000000" : String).data = List.replicate 32 '0' := by
  decide

/-- The data of the all-zero 16-char string is `replicate 16 '0'`. -/
theorem zeros16_data :
    ("0000000000000000" : String).data = List.replicate 16 '0' := by
  decide

/-- Soundness of `traceparentMatch`: a successful match decomposes the input
into four hex groups of the regex's lengths, separated by dashes. -/
theorem traceparentMatch_sound {s : String} {v t p f : String}
    (hm : traceparentMatch s = some (v, t, p, f)) :
    s.data = v.data ++ '-' :: (t.data ++ '-' :: (p.data ++ '-' :: f.data)) ∧
    v.data.length = 2 ∧ t.data.length = 32 ∧ p.data.length = 16 ∧
    f.data.length = 2 ∧
    (∀ c ∈ v.data, isLowerHexDigit c = true) ∧
    (∀ c ∈ t.data, isLowerHexDigit c = true) ∧
    (∀ c ∈ p.data, isLowerHexDigit c = true) ∧
    (∀ c ∈ f.data, isLowerHexDigit c = true) := by
  cases e1 : takeHex 2 s.data with
  | none => simp [traceparentMatch, e1] at hm
  | some pr1 =>
  obtain ⟨v', rest1⟩ := pr1
  cases e2 : expectDash rest1 with
  | none => simp [traceparentMatch, e1, e2] at hm
  | some rest2 =>
  cases e3 : takeHex 32 rest2 with
  | none => simp [traceparentMatch, e1, e2, e3] at hm
  | some pr2 =>
  obtain ⟨t', rest3⟩ := pr2
  cases e4 : expectDash rest3 with
  | none => simp [traceparentMatch, e1, e2, e3, e4] at hm
  | some rest4 =>
  cases e5 : takeHex 16 rest4 with
  | none => simp [traceparentMatch, e1, e2, e3, e4, e5] at hm
  | some pr3 =>
  obtain ⟨p', rest5⟩ := pr3
  cases e6 : expectDash rest5 with
  | none => simp [traceparentMatch, e1, e2, e3, e4, e5, e6] at hm
  | some rest6 =>
  cases e7 : takeHex 2 rest6 with
  | none => simp [traceparentMatch, e1, e2, e3, e4, e5, e6, e7] at hm
  | some pr4 =>
  obtain ⟨f', rest7⟩ := pr4
  by_cases e8 : rest7 = []
  · subst e8
    simp [traceparentMatch, e1, e2, e3, e4, e5, e6, e7] at hm
    obtain ⟨hv, ht, hp, hf⟩ := hm
    subst hv ht hp hf
    obtain ⟨d1, l1, x1⟩ := takeHex_sound 2 s.data v' rest1 e1
    have d2 := expectDash_sound e2
    obtain ⟨d3, l3, x3⟩ := takeHex_sound 32 rest2 t' rest3 e3
    have d4 := expectDash_sound e4
    obtain ⟨d5, l5, x5⟩ := takeHex_sound 16 rest4 p' rest5 e5
    have d6 := expectDash_sound e6
    obtain ⟨d7, l7, x7⟩ := takeHex_sound 2 rest6 f' [] e7
    rw [List.append_nil] at d7
    refine ⟨?_, l1, l3, l5, l7, x1, x3, x5, x7⟩
    rw [d1, d2, d3, d4, d5, d6, d7]
  · simp [traceparentMatch, e1, e2, e3, e4, e5, e6, e7, e8] at hm

/-- Completeness of `traceparentMatch`: it accepts every string of the
regex's shape and returns the three groups. -/
theorem traceparentMatch_complete (v t p f : List Char)
    (hv : v.length = 2) (ht : t.length = 32) (hp : p.length = 16)
    (hf : f.length = 2)
    (hxv : ∀ c ∈ v, isLowerHexDigit c = true)
    (hxt : ∀ c ∈ t, isLowerHexDigit c = true)
    (hxp : ∀ c ∈ p, isLowerHexDigit c = true)
    (hxf : ∀ c ∈ f, isLowerHexDigit c = true) :
    traceparentMatch ⟨v ++ '-' :: (t ++ '-' :: (p ++ '-' :: f))⟩
      = some (⟨v⟩, ⟨t⟩, ⟨p⟩, ⟨f⟩) := by
  have h1 : takeHex 2 (v ++ '-' :: (t ++ '-' :: (p ++ '-' :: f)))
      = some (v, '-' :: (t ++ '-' :: (p ++ '-' :: f))) := by
    rw [← hv]; exact takeHex_complete v _ hxv
  have h3 : takeHex 32 (t ++ '-' :: (p ++ '-' :: f))
      = some (t, '-' :: (p ++ '-' :: f)) := by
    rw [← ht]; exact takeHex_complete t _ hxt
  have h5 : takeHex 16 (p ++ '-' :: f) = some (p, '-' :: f) := by
    rw [← hp]; exact takeHex_complete p _ hxp
  have h7 : takeHex 2 f = some (f, []) := by
    have := takeHex_complete f [] hxf
    rw [List.append_nil] at this
    rw [← hf]; exact this
  simp [traceparentMatch, h1, expectDash, h3, h5, h7]

/-- `parseTraceparent` yields a trace pair exactly on accepted headers. -/
theorem parseTraceparent_some_iff (h : Option String) :
    (∃ tid sid, parseTraceparent h = (some tid, some sid)) ↔
    (∃ s, h = some s ∧ TraceAccepted s) := by
  constructor
  · rintro ⟨tid, sid, hps⟩
    cases h with
    | none => simp [parseTraceparent] at hps
    | some s =>
      refine ⟨s, rfl, ?_⟩
      cases em : traceparentMatch s with
      | none => simp [parseTraceparent, em] at hps
      | some q =>
        obtain ⟨v, t, p, f⟩ := q
        by_cases g : v = "ff" ∨ t = "00000000000000000000000000000000"
            ∨ p = "0000000000000000"
        · simp [parseTraceparent, em, g] at hps
        · push_neg at g
          obtain ⟨gv, gt, gp⟩ := g
          obtain ⟨hdec, lv, lt, lp, lf, xv, xt, xp, xf⟩ := traceparentMatch_sound em
          refine ⟨v.data, t.data, p.data, f.data, hdec, lv, lt, lp, lf,
            xv, xt, xp, xf, ?_, ?_, ?_⟩
          · intro hc
            exact gv (string_eq_of_data_eq (by rw [hc]))
          · intro hc
            exact gt (string_eq_of_data_eq (by rw [hc, zeros32_data]))
          · intro hc
            exact gp (string_eq_of_data_eq (by rw [hc, zeros16_data]))
  · rintro ⟨s, rfl, v, t, p, f, hdec, lv, lt, lp, lf, xv, xt, xp, xf, gv, gt, gp⟩
    have hs : s = ⟨v ++ '-' :: (t ++ '-' :: (p ++ '-' :: f))⟩ :=
      string_eq_of_data_eq hdec
    have em : traceparentMatch s = some (⟨v⟩, ⟨t⟩, ⟨p⟩, ⟨f⟩) := by
      rw [hs]; exact traceparentMatch_complete v t p f lv lt lp lf xv xt xp xf
    have g1 : (⟨v⟩ : String) ≠ "ff" := by
      intro hc
      exact gv (by simpa using congrArg String.data hc)
    have g2 : (⟨t⟩ : String) ≠ "00000000000000000000000000000000" := by
      intro hc
      apply gt
      have := congrArg String.data hc
      simpa [zeros32_data] using this
    have g3 : (⟨p⟩ : String) ≠ "0000000000000000" := by
      intro hc
      apply gp
      have := congrArg String.data hc
      simpa [zeros16_data] using this
    exact ⟨⟨t⟩, ⟨p⟩, by simp [parseTraceparent, em, g1, g2, g3]⟩

-- =================================================================
-- Claim theorems
-- =================================================================

/-- C10: for every problem key `k`, `statusToKey` maps the registry status of
`k` back to `k`; the twelve registry entries carry pairwise distinct HTTP
statuses; and `getProblemDefByStatus` applied to a registry status returns
exactly that entry (including `internal_error`, whose status 500 resolves via
the default branch of `statusToKey`). -/
theorem statusToKey_left_inverse_of_registry :
    (∀ k : ProblemKey, statusToKey (ProblemRegistry k).status = k) ∧
    (registryKeyOrder.map (fun k => (ProblemRegistry k).status)).Nodup ∧
    (∀ k : ProblemKey, getProblemDefByStatus (ProblemRegistry k).status
      = ProblemRegistry k) := by
  refine ⟨?_, ?_, ?_⟩
  · intro k; cases k <;> rfl
  · decide
  · intro k; cases k <;> rfl

/-- C6: every base registry code matches `^E1\d{3}$`, each domain table's
codes match the domain range (`E2xxx` auth, `E3xxx` signing, `E4xxx`
company/environment, `E5xxx` SOAP) as well as `^E\d{4}$`, and the union of
all codes across the base registry and the four domain tables has no
duplicates. -/
theorem error_code_ranges_and_uniqueness :
    (∀ c ∈ problemRegistryCodes, matchesRangeCode '1' c = true ∧
      matchesECodeFormat c = true) ∧
    (∀ c ∈ AUTH_CODES, matchesRangeCode '2' c = true ∧
      matchesECodeFormat c = true) ∧
    (∀ c ∈ SIGNING_CODES, matchesRangeCode '3' c = true ∧
      matchesECodeFormat c = true) ∧
    (∀ c ∈ COMPANY_CODES, matchesRangeCode '4' c = true ∧
      matchesECodeFormat c = true) ∧
    (∀ c ∈ SOAP_CODES, matchesRangeCode '5' c = true ∧
      matchesECodeFormat c = true) ∧
    allCodes.Nodup := by
  decide

/-- Witness for C6 at concrete codes of the base and auth tables. -/
theorem error_code_ranges_witness :
    matchesRangeCode '1' "E1404" = true ∧ matchesRangeCode '2' "E2005" = true :=
  ⟨(error_code_ranges_and_uniqueness.1 "E1404" (by decide)).1,
   (error_code_ranges_and_uniqueness.2.1 "E2005" (by decide)).1⟩

/-- C1: for every `AppError`, `toProblemDetails` resolves the registry entry
of its key and returns `httpStatus = statusOverride ?? def.status`,
`code = codeOverride ?? def.code`,
`detail = safeDetail(def, detail ?? message)` and `errors = err.errors`; in
particular `AppError.notFound("User","123")` converts to `httpStatus = 404`,
detail `"User with identifier '123' was not found"` and code `"E1404"` (in
every mode: `not_found` exposes its detail). -/
theorem appError_toProblemDetails_spec :
    (∀ (prod : Bool) (baseUrl : Option String) (instPath : String)
        (e : AppError),
      (toProblemDetails prod baseUrl instPath (.app e)).key = e.key ∧
      (toProblemDetails prod baseUrl instPath (.app e)).httpStatus
        = e.statusOverride.getD (ProblemRegistry e.key).status ∧
      (toProblemDetails prod baseUrl instPath (.app e)).problem.code
        = e.codeOverride.getD (ProblemRegistry e.key).code ∧
      (toProblemDetails prod baseUrl instPath (.app e)).problem.detail
        = safeDetail prod (ProblemRegistry e.key) (e.detail.getD e.message) ∧
      (toProblemDetails prod baseUrl instPath (.app e)).problem.errors
        = e.errors) ∧
    (∀ (prod : Bool) (baseUrl : Option String) (instPath : String),
      (toProblemDetails prod baseUrl instPath
        (.app (AppError.notFound "User" (some "123")))).httpStatus = 404 ∧
      (toProblemDetails prod baseUrl instPath
        (.app (AppError.notFound "User" (some "123")))).problem.detail
          = "User with identifier '123' was not found" ∧
      (toProblemDetails prod baseUrl instPath
        (.app (AppError.notFound "User" (some "123")))).problem.code
          = "E1404") := by
  refine ⟨?_, ?_⟩
  · intro prod baseUrl instPath e
    exact ⟨rfl, rfl, rfl, rfl, rfl⟩
  · intro prod baseUrl instPath
    refine ⟨rfl, ?_, rfl⟩
    cases prod <;> rfl

/-- C2: `safeDetail` in production returns the raw detail exactly when the
matched definition exposes detail and the fixed generic string otherwise;
outside production it always returns the raw detail; consequently any
conversion whose matched registry entry has `exposeDetail = false` (such as
a raw `Error` reaching the unknown-error fallback, which maps to
`internal_error`) produces the generic detail in production and the raw
message otherwise. -/
theorem safeDetail_exposure_policy :
    (∀ (defn : ProblemDef) (raw : String),
      safeDetail true defn raw
        = if defn.exposeDetail then raw else "An unexpected error occurred") ∧
    (∀ (defn : ProblemDef) (raw : String), safeDetail false defn raw = raw) ∧
    (∀ (baseUrl : Option String) (instPath : String) (err : ErrValue),
      (ProblemRegistry (toProblemDetails true baseUrl instPath err).key).exposeDetail
          = false →
      (toProblemDetails true baseUrl instPath err).problem.detail
        = "An unexpected error occurred") ∧
    (∀ (baseUrl : Option String) (instPath : String) (msg : String),
      (toProblemDetails true baseUrl instPath (.jsError msg)).problem.detail
        = "An unexpected error occurred" ∧
      (toProblemDetails false baseUrl instPath (.jsError msg)).problem.detail
        = msg) := by
  refine ⟨fun defn raw => rfl, fun defn raw => rfl, ?_, ?_⟩
  · intro baseUrl instPath err hexp
    cases err with
    | app e =>
      have hexp' : (ProblemRegistry e.key).exposeDetail = false := hexp
      simp [toProblemDetails, safeDetail, hexp']
    | zod e =>
      have hexp' : (ProblemRegistry .validation_error).exposeDetail = false := hexp
      exact absurd hexp' (by decide)
    | http e =>
      have hexp' : (ProblemRegistry (statusToKey e.status)).exposeDetail = false :=
        hexp
      simp [toProblemDetails, safeDetail, hexp']
    | jsError msg => rfl
    | nonError => rfl
  · intro baseUrl instPath msg
    exact ⟨rfl, rfl⟩

/-- Witness for C2: a raw `Error("db password leaked")` in production mode
is sanitized to the generic message. -/
theorem safeDetail_exposure_policy_witness :
    (toProblemDetails true none "/x" (.jsError "db password leaked")).problem.detail
      = "An unexpected error occurred" :=
  safeDetail_exposure_policy.2.2.1 none "/x" (.jsError "db password leaked")
    (by decide)

/-- C7: for every generic HTTP exception, `toProblemDetails` returns
`key = statusToKey(status)`, `httpStatus = problem.status = status` (the
exception's own status is authoritative, also for unmapped statuses such as
418, which resolve to `internal_error`), the matched registry entry's code,
and empty `errors`; in particular status 429 yields `rate_limited` with code
`"E1429"`. -/
theorem httpException_toProblemDetails_spec :
    (∀ (prod : Bool) (baseUrl : Option String) (instPath : String)
        (e : HTTPException),
      (toProblemDetails prod baseUrl instPath (.http e)).key
        = statusToKey e.status ∧
      (toProblemDetails prod baseUrl instPath (.http e)).httpStatus
        = e.status ∧
      (toProblemDetails prod baseUrl instPath (.http e)).problem.status
        = e.status ∧
      (toProblemDetails prod baseUrl instPath (.http e)).problem.code
        = (ProblemRegistry (statusToKey e.status)).code ∧
      (toProblemDetails prod baseUrl instPath (.http e)).problem.errors = []) ∧
    (∀ (prod : Bool) (baseUrl : Option String) (instPath msg : String),
      (toProblemDetails prod baseUrl instPath (.http ⟨429, msg⟩)).key
        = .rate_limited ∧
      (toProblemDetails prod baseUrl instPath (.http ⟨429, msg⟩)).httpStatus
        = 429 ∧
      (toProblemDetails prod baseUrl instPath (.http ⟨429, msg⟩)).problem.code
        = "E1429") ∧
    (∀ (prod : Bool) (baseUrl : Option String) (instPath msg : String),
      (toProblemDetails prod baseUrl instPath (.http ⟨418, msg⟩)).key
        = .internal_error ∧
      (toProblemDetails prod baseUrl instPath (.http ⟨418, msg⟩)).httpStatus
        = 418) := by
  refine ⟨?_, ?_, ?_⟩
  · intro prod baseUrl instPath e
    exact ⟨rfl, rfl, rfl, rfl, rfl⟩
  · intro prod baseUrl instPath msg
    exact ⟨rfl, rfl, rfl⟩
  · intro prod baseUrl instPath msg
    exact ⟨rfl, rfl⟩

/-- C9: the validation adapter emits one `FieldError` per issue preserving
input order; a field error's code is the issue's explicit `params.ecode`
marker when present and matching `^E\d{4}$`, and the constant generic
`"E1001"` otherwise; the code never depends on the human-readable message;
and the default adapter (`zodToFieldErrors`, used outside structured
call-sites) assigns `"E1001"` to every issue. -/
theorem validation_adapter_spec :
    (∀ (zerr : ZodError),
      (zodToFieldErrorsWithDomainCodes zerr).length = zerr.issues.length) ∧
    (∀ (zerr : ZodError) (i : Nat),
      (zodToFieldErrorsWithDomainCodes zerr)[i]?
        = (zerr.issues[i]?).map issueToFieldErrorWithCode) ∧
    (∀ (issue : ZodIssue),
      issueToFieldErrorWithCode issue
        = { field := issueFieldName issue.path,
            pointer := some (toJsonPointerFragment (issue.path.map Tok.toSeg) false),
            message := issue.message,
            code := some (mapToECode issue),
            reason := some issue.code }) ∧
    (∀ (issue : ZodIssue) (s : String),
      issue.params = .ecode s → matchesECodeFormat s = true →
        mapToECode issue = s) ∧
    (∀ (path : List Tok) (msg zc : String),
      mapToECode ⟨path, msg, zc, .missing⟩ = "E1001" ∧
      mapToECode ⟨path, msg, zc, .paramsWithoutEcode⟩ = "E1001") ∧
    (∀ (path : List Tok) (msg zc s : String), matchesECodeFormat s = false →
      mapToECode ⟨path, msg, zc, .ecode s⟩ = "E1001") ∧
    (∀ (path : List Tok) (msg msg2 zc : String) (pr : EcodeParams),
      mapToECode ⟨path, msg, zc, pr⟩ = mapToECode ⟨path, msg2, zc, pr⟩) ∧
    (∀ (zerr : ZodError), ∀ fe ∈ zodToFieldErrors zerr,
      fe.code = some "E1001") := by
  refine ⟨?_, ?_, fun issue => rfl, ?_, ?_, ?_, ?_, ?_⟩
  · intro zerr
    simp [zodToFieldErrorsWithDomainCodes]
  · intro zerr i
    simp [zodToFieldErrorsWithDomainCodes]
  · intro issue s hps hfmt
    simp [mapToECode, extractEcodeFromParams, hps, hfmt]
  · intro path msg zc
    exact ⟨rfl, rfl⟩
  · intro path msg zc s hfmt
    simp [mapToECode, extractEcodeFromParams, hfmt, DEFAULT_VALIDATION_CODE]
  · intro path msg msg2 zc pr
    cases pr <;> rfl
  · intro zerr fe hfe
    simp [zodToFieldErrors] at hfe
    obtain ⟨issue, _, rfl⟩ := hfe
    rfl

/-- Witness for C9: an issue with marker `E3002` maps to `E3002`, and a
markerless issue in the default adapter maps to `E1001`. -/
theorem validation_adapter_witness :
    mapToECode ⟨[], "bad base64", "custom", .ecode "E3002"⟩ = "E3002" ∧
    ({ field := none, pointer := some "#", message := "m",
       code := some "E1001", reason := some "custom" } : FieldError).code
      = some "E1001" :=
  ⟨validation_adapter_spec.2.2.2.1 ⟨[], "bad base64", "custom", .ecode "E3002"⟩
      "E3002" rfl (by decide),
   validation_adapter_spec.2.2.2.2.2.2.2 ⟨[⟨[], "m", "custom", .missing⟩]⟩
      { field := none, pointer := some "#", message := "m",
        code := some "E1001", reason := some "custom" } (by decide)⟩

/-- C3 counterexample: `ok` with `data = null` builds an envelope with
`success = true` but `data == null`, so "success == true iff
data != null && error == null" fails for arbitrary data: `ok` performs no
null check on `data`. -/
theorem envelope_invariant_counterexample :
    (ok ctx0 (none : Option Unit) none).body.success = true ∧
    (ok ctx0 (none : Option Unit) none).body.data = none ∧
    (ok ctx0 (none : Option Unit) none).body.error = none ∧
    ¬((ok ctx0 (none : Option Unit) none).body.success = true ↔
      ((ok ctx0 (none : Option Unit) none).body.data ≠ none ∧
       (ok ctx0 (none : Option Unit) none).body.error = none)) := by
  refine ⟨rfl, rfl, rfl, ?_⟩
  intro h
  exact (h.mp rfl).1 rfl

/-- C3 (amended): for every envelope built by `ok` with non-null data,
`success = true`, `data` is non-null and `error` is null; for every envelope
built by `fail`, `success = false`, `data` is null and `error` is non-null;
so, excepting the `data = null` case of `ok`, success equals "data non-null
and error null" and failure equals "data null and error non-null". -/
theorem envelope_invariant_amended :
    (∀ (α : Type) (c : ReqContext) (d : Option α) (s : Option Nat),
      d ≠ none →
        (ok c d s).body.success = true ∧ (ok c d s).body.data ≠ none ∧
        (ok c d s).body.error = none) ∧
    (∀ (α : Type) (c : ReqContext) (pb : ProblemDetails) (s : Nat),
      (@fail α c pb s).body.success = false ∧
      (@fail α c pb s).body.data = none ∧
      (@fail α c pb s).body.error ≠ none) := by
  constructor
  · intro α c d s hd
    exact ⟨rfl, hd, rfl⟩
  · intro α c pb s
    exact ⟨rfl, rfl, fun h => Option.noConfusion h⟩

/-- Witness for C3 (amended) at concrete non-null data. -/
theorem envelope_invariant_amended_witness :
    (ok ctx0 (some 42) none).body.success = true ∧
    (ok ctx0 (some 42) none).body.data ≠ none ∧
    (ok ctx0 (some 42) none).body.error = none :=
  envelope_invariant_amended.1 Nat ctx0 (some 42) none (by decide)

/-- C4 counterexample: `fail` does not check its `status` argument against
`problem.status` — a direct call with a mismatched pair emits an envelope
whose `error.status` (500) differs from the actual response status (400),
silently desynchronizing them. -/
theorem fail_status_desync_counterexample :
    errorStatusOf (@fail Unit ctx0 problem500 400) = some 500 ∧
    (@fail Unit ctx0 problem500 400).status = 400 ∧
    errorStatusOf (@fail Unit ctx0 problem500 400)
      ≠ some (@fail Unit ctx0 problem500 400).status := by
  refine ⟨rfl, rfl, ?_⟩
  intro h
  simp [errorStatusOf, fail, problem500] at h

/-- C4 (amended): `toProblemDetails` always returns `problem.status` equal to
`httpStatus`, and the central error handler passes that pair to `fail`, so
every envelope emitted through `handleStandardError` carries
`error.status` equal to the actual HTTP response status; `fail` itself does
not enforce the equality for direct callers. -/
theorem error_handler_status_sync :
    (∀ (prod : Bool) (baseUrl : Option String) (instPath : String)
        (err : ErrValue),
      (toProblemDetails prod baseUrl instPath err).problem.status
        = (toProblemDetails prod baseUrl instPath err).httpStatus) ∧
    (∀ (prod : Bool) (baseUrl : Option String) (c : ReqContext)
        (err : ErrValue),
      errorStatusOf (handleStandardError prod baseUrl c err)
        = some (handleStandardError prod baseUrl c err).status) := by
  constructor
  · intro prod baseUrl instPath err
    cases err <;> rfl
  · intro prod baseUrl c err
    cases err <;> rfl

/-- C8: `escapeJsonPointerToken` applies `~ → ~0` before `/ → ~1`
(`"~/"` gives `"~0~1"`, `"/~"` gives `"~1~0"`); `toJsonPointerFragment`
returns `"#"` on the empty path and otherwise escapes each kept segment and
joins with `/` after `#/`; with `uriEncode = true` percent-encoding is
applied after the RFC 6901 escaping and encodes space, `%`, `#`, `?` while
leaving `! ' ( ) *` unescaped; symbol segments are filtered out; the
functions are total Lean functions by construction. -/
theorem json_pointer_fragment_spec :
    escapeJsonPointerToken (.str "~/") = "~0~1" ∧
    escapeJsonPointerToken (.str "/~") = "~1~0" ∧
    toJsonPointerFragment [] false = "#" ∧
    toJsonPointerFragment [] true = "#" ∧
    toJsonPointerFragment [.str "a/b"] false = "#/a~1b" ∧
    toJsonPointerFragment [.str "m~n"] false = "#/m~0n" ∧
    toJsonPointerFragment [.str "a b"] true = "#/a%20b" ∧
    toJsonPointerFragment [.str "~%"] true = "#/~0%25" ∧
    percentEncodeForFragment " " = "%20" ∧
    percentEncodeForFragment "%" = "%25" ∧
    percentEncodeForFragment "#" = "%23" ∧
    percentEncodeForFragment "?" = "%3F" ∧
    percentEncodeForFragment "!()*" = "!()*" ∧
    percentEncodeForFragment (String.singleton (Char.ofNat 39))
      = String.singleton (Char.ofNat 39) ∧
    (∀ path : List Seg, path.filterMap segToTok ≠ [] →
      toJsonPointerFragment path false
        = "#/" ++ String.intercalate "/"
            ((path.filterMap segToTok).map escapeJsonPointerToken) ∧
      toJsonPointerFragment path true
        = "#/" ++ String.intercalate "/"
            (((path.filterMap segToTok).map escapeJsonPointerToken).map
              percentEncodeForFragment)) ∧
    (∀ (l1 l2 : List Seg) (b : Bool),
      toJsonPointerFragment (l1 ++ Seg.sym :: l2) b
        = toJsonPointerFragment (l1 ++ l2) b) := by
  refine ⟨rfl, rfl, rfl, rfl, by decide, by decide, by decide, by decide,
    by decide, by decide, by decide, by decide, by decide, by decide, ?_, ?_⟩
  · intro path h
    cases hv : path.filterMap segToTok with
    | nil => exact absurd hv h
    | cons a l =>
      constructor <;> simp [toJsonPointerFragment, hv]
  · intro l1 l2 b
    simp [toJsonPointerFragment, List.filterMap_append, List.filterMap_cons,
      segToTok]

/-- Witness for C8 at a concrete non-empty path. -/
theorem json_pointer_fragment_witness :
    toJsonPointerFragment [Seg.str "a"] false
      = "#/" ++ String.intercalate "/"
          (([Seg.str "a"].filterMap segToTok).map escapeJsonPointerToken) :=
  (json_pointer_fragment_spec.2.2.2.2.2.2.2.2.2.2.2.2.2.2.1
    [Seg.str "a"] (by decide)).1

/-- C5: `buildMeta` surfaces `traceId`/`spanId` exactly when the traceparent
header value matches `^[0-9a-f]{2}-[0-9a-f]{32}-[0-9a-f]{16}-[0-9a-f]{2}$`
with version not `ff`, trace-id not all zeros and parent-id not all zeros;
every other value, including an absent header, yields a meta with neither
field, and parsing is a total function (it never throws); the all-zero
trace-id example is rejected and the valid example surfaces its trace and
span ids. -/
theorem buildMeta_traceparent_spec :
    (∀ c : ReqContext,
      ((∃ tid sid, (buildMeta c).traceId = some tid ∧
          (buildMeta c).spanId = some sid) ↔
        (∃ s, c.traceparent = some s ∧ TraceAccepted s)) ∧
      (buildMeta c).traceId = (parseTraceparent c.traceparent).1 ∧
      (buildMeta c).spanId = (parseTraceparent c.traceparent).2) ∧
    parseTraceparent
        (some "00-00000000000000000000000000000000-b7ad6b7169203331-01")
      = (none, none) ∧
    parseTraceparent
        (some "00-0af7651916cd43dd8448eb211c80319c-b7ad6b7169203331-01")
      = (some "0af7651916cd43dd8448eb211c80319c", some "b7ad6b7169203331") ∧
    parseTraceparent none = (none, none) := by
  refine ⟨?_, by decide, by decide, rfl⟩
  intro c
  refine ⟨?_, rfl, rfl⟩
  rw [← parseTraceparent_some_iff]
  constructor
  · rintro ⟨tid, sid, h1, h2⟩
    refine ⟨tid, sid, ?_⟩
    have h1' : (parseTraceparent c.traceparent).1 = some tid := h1
    have h2' : (parseTraceparent c.traceparent).2 = some sid := h2
    exact Prod.ext_iff.mpr ⟨h1', h2'⟩
  · rintro ⟨tid, sid, hps⟩
    exact ⟨tid, sid, congrArg Prod.fst hps, congrArg Prod.snd hps⟩

/-- Witness for C5: the valid example header surfaces its ids. -/
theorem buildMeta_traceparent_witness :
    parseTraceparent
        (some "00-0af7651916cd43dd8448eb211c80319c-b7ad6b7169203331-01")
      = (some "0af7651916cd43dd8448eb211c80319c", some "b7ad6b7169203331") :=
  buildMeta_traceparent_spec.2.2.1
